import Mathlib

/-!
Verification development for the AutoDeployX backend tracking service
(`autodeploy/backend/main.py`).

The service keeps one shared in-memory state block: run counters with a
bounded build ledger, a log-line ledger, a current-pipeline record and a
Kubernetes deployment record.  The endpoint handlers are embedded below as
pure state transformers; wall-clock timestamps and the simulated random
duration are passed as parameters, and the outcome of the outbound call to
the build server is a boolean parameter.
-/

/-- Python `x or d` for an optional string: `None` and `""` are falsy. -/
def pyOrStr : Option String → String → String
  | none, d => d
  | some s, d => if s = "" then d else s

/-- Python `x or d` for an optional integer: `None` and `0` are falsy. -/
def pyOrInt : Option Int → Int → Int
  | none, d => d
  | some n, d => if n = 0 then d else n

/-- Python truthiness test `not x` for an optional string. -/
def strFalsy : Option String → Bool
  | none => true
  | some s => s = ""

/-- Python `str(x)` for an optional string (`None` prints as `"None"`). -/
def pyShow : Option String → String
  | none => "None"
  | some s => s

/-- Inbound Jenkins status event (`PipelineStatus` model in `main.py`). -/
structure PipelineStatus where
  status : String
  pipeline_name : Option String
  build_number : Option Int
  stage : Option String
  message : Option String
  branch : Option String
deriving DecidableEq

/-- Inbound stage event (`StageUpdate` model in `main.py`). -/
structure StageUpdate where
  stage_name : String
  status : String
  timestamp : Option String
deriving DecidableEq

/-- Inbound deployment lifecycle event (`DeploymentEvent` model); the free-form
`details` dict is embedded as an optional association list. -/
structure DeploymentEvent where
  event_type : String
  status : String
  details : Option (List (String × String))
deriving DecidableEq

/-- Inbound trigger request (`TriggerRequest` model). -/
structure TriggerRequest where
  pipeline_name : String
  branch : String
deriving DecidableEq

/-- Element of `pipeline_status["builds"]`. -/
structure BuildEntry where
  pipeline_name : Option String
  build_number : Int
  status : String
  stage : Option String
  branch : String
  timestamp : String
  message : Option String
  duration : Int
deriving DecidableEq

/-- Element of `deployment_logs`. -/
structure LogEntry where
  timestamp : String
  level : String
  message : String
deriving DecidableEq

/-- Element of `kubernetes_state["rolloutHistory"]`. -/
structure RolloutRecord where
  revision : Nat
  image : String
  timestamp : String
  status : String
deriving DecidableEq

/-- Element of the current pipeline's `stages` list; entries seeded by the
trigger template carry no timestamp key, embedded as `none`. -/
structure StageEntry where
  name : String
  status : String
  timestamp : Option String
deriving DecidableEq

/-- Pod descriptor (`kubernetes_state["pods"]` entries). -/
structure Pod where
  name : String
  status : String
  restarts : Nat
deriving DecidableEq

/-- The `pipeline_status` global: run counters plus the bounded build ledger. -/
structure PipelineStatusCounters where
  total : Int
  active : Int
  success : Int
  failed : Int
  builds : List BuildEntry
deriving DecidableEq

/-- The `current_pipeline` global. -/
structure CurrentPipeline where
  pipelineName : Option String
  buildNumber : Int
  status : String
  currentStage : String
  branch : String
  startTime : Option String
  duration : Option Int
  stages : List StageEntry
deriving DecidableEq

/-- The `kubernetes_state` global. -/
structure KubernetesState where
  cluster : String
  «namespace» : String
  deploymentName : String
  currentVersion : String
  pods : List Pod
  rolloutHistory : List RolloutRecord
deriving DecidableEq

/-- The whole shared mutable state block of the service. -/
structure AppState where
  pipeline_status : PipelineStatusCounters
  deployment_logs : List LogEntry
  current_pipeline : CurrentPipeline
  kubernetes_state : KubernetesState
deriving DecidableEq

/-- Initial `pipeline_status` (module top level of `main.py`). -/
def initial_pipeline_status : PipelineStatusCounters :=
  { total := 0, active := 0, success := 0, failed := 0, builds := [] }

/-- Initial `current_pipeline` (module top level of `main.py`). -/
def initial_current_pipeline : CurrentPipeline :=
  { pipelineName := none, buildNumber := 0, status := "pending",
    currentStage := "Waiting...", branch := "main", startTime := none,
    duration := none, stages := [] }

/-- Initial `kubernetes_state` (module top level of `main.py`). -/
def initial_kubernetes_state : KubernetesState :=
  { cluster := "minikube", «namespace» := "default",
    deploymentName := "autodeployx-app", currentVersion := "latest",
    pods := [], rolloutHistory := [] }

/-- The full state at process start. -/
def initialState : AppState :=
  { pipeline_status := initial_pipeline_status
    deployment_logs := []
    current_pipeline := initial_current_pipeline
    kubernetes_state := initial_kubernetes_state }

/-- The guarded decrement of the `active` counter
(`if pipeline_status["active"] > 0: pipeline_status["active"] -= 1`). -/
def decActive (a : Int) : Int := if a > 0 then a - 1 else a

/-- `POST /jenkins/status` handler (`update_jenkins_status`).  `nowIso` stands
for `datetime.now().isoformat()`, `nowShort` for the `%H:%M:%S` form and
`duration` for the simulated random duration.  Note that the final
`deployment_logs[:100]` line of the source is a bare expression whose result
is discarded, so the log ledger is NOT truncated here. -/
def update_jenkins_status (u : PipelineStatus) (nowIso nowShort : String)
    (duration : Int) (s : AppState) : AppState × BuildEntry :=
  let ps := s.pipeline_status
  let total := ps.total + 1
  let counters :=
    if u.status = "success" then (ps.success + 1, ps.failed, decActive ps.active)
    else if u.status = "failure" then (ps.success, ps.failed + 1, decActive ps.active)
    else if u.status = "running" then (ps.success, ps.failed, ps.active + 1)
    else (ps.success, ps.failed, ps.active)
  let cp := s.current_pipeline
  let startTime :=
    if u.status = "running" ∧ strFalsy cp.startTime then some nowShort
    else cp.startTime
  let cp' : CurrentPipeline :=
    { pipelineName := u.pipeline_name
      buildNumber := pyOrInt u.build_number total
      status := u.status
      currentStage := pyOrStr u.stage "Processing..."
      branch := pyOrStr u.branch "main"
      startTime := startTime
      duration := cp.duration
      stages := cp.stages }
  let build : BuildEntry :=
    { pipeline_name := u.pipeline_name
      build_number := pyOrInt u.build_number total
      status := u.status
      stage := u.stage
      branch := pyOrStr u.branch "main"
      timestamp := nowIso
      message := u.message
      duration := duration }
  let log : LogEntry :=
    { timestamp := nowShort
      level := if u.status = "success" then "success"
               else if u.status = "failure" then "error" else "info"
      message := pyOrStr u.message
        ("Pipeline " ++ pyShow u.pipeline_name ++ " - " ++ u.status) }
  ({ pipeline_status :=
       { total := total, success := counters.1, failed := counters.2.1,
         active := counters.2.2, builds := (build :: ps.builds).take 100 }
     deployment_logs := log :: s.deployment_logs
     current_pipeline := cp'
     kubernetes_state := s.kubernetes_state }, build)

/-- The stage-list loop of `update_stage`: mutate the first entry whose name
matches, report whether one was found. -/
def setStage (l : List StageEntry) (n st t : String) : List StageEntry × Bool :=
  match l with
  | [] => ([], false)
  | e :: rest =>
    if e.name = n then ({ e with status := st, timestamp := some t } :: rest, true)
    else
      let r := setStage rest n st t
      (e :: r.1, r.2)

/-- `POST /jenkins/stage` handler (`update_stage`). -/
def update_stage (u : StageUpdate) (now : String) (s : AppState) :
    AppState × String :=
  let t := pyOrStr u.timestamp now
  let cp := s.current_pipeline
  let r := setStage cp.stages u.stage_name u.status t
  let stages :=
    if r.2 then r.1
    else cp.stages ++ [{ name := u.stage_name, status := u.status, timestamp := some t }]
  let log : LogEntry :=
    { timestamp := now
      level := if u.status = "success" then "success"
               else if u.status = "failed" then "error" else "info"
      message := "Stage \x27" ++ u.stage_name ++ "\x27 - " ++ u.status }
  ({ s with
      current_pipeline := { cp with stages := stages, currentStage := u.stage_name }
      deployment_logs := log :: s.deployment_logs }, u.stage_name)

/-- Python truthiness of the optional `details` dict (`None` and `{}` falsy). -/
def detailsTruthy : Option (List (String × String)) → Bool
  | none => false
  | some l => !l.isEmpty

/-- Python `"version" in event.details` over the association-list embedding. -/
def hasVersionKey (d : Option (List (String × String))) : Bool :=
  (d.getD []).any (fun p => p.1 = "version")

/-- `details["version"]` / `details.get("version", "latest")`. -/
def versionOf (d : Option (List (String × String))) : String :=
  (((d.getD []).find? (fun p => p.1 = "version")).map (fun p => p.2)).getD "latest"

/-- `json.dumps` on the association-list embedding of `details`. -/
def dumpsPairs (l : List (String × String)) : String :=
  "\x7b" ++ String.intercalate ", "
    (l.map (fun p => "\x22" ++ p.1 ++ "\x22: \x22" ++ p.2 ++ "\x22")) ++ "\x7d"

/-- `POST /deployments/event` handler (`record_deployment_event`). -/
def record_deployment_event (e : DeploymentEvent) (now : String) (s : AppState) :
    AppState × LogEntry :=
  let log : LogEntry :=
    { timestamp := now
      level := if e.status = "success" then "success"
               else if e.status = "failure" then "error" else "info"
      message := e.event_type ++ ": " ++ e.status ++
        (if detailsTruthy e.details then " - " ++ dumpsPairs (e.details.getD []) else "") }
  let ks := s.kubernetes_state
  let ks' :=
    if e.event_type = "deploy" ∧ e.status = "success" then
      if detailsTruthy e.details ∧ hasVersionKey e.details then
        { ks with
            currentVersion := versionOf e.details
            rolloutHistory :=
              ({ revision := ks.rolloutHistory.length + 1
                 image := versionOf e.details
                 timestamp := now
                 status := "success" } :: ks.rolloutHistory).take 10 }
      else ks
    else ks
  ({ s with deployment_logs := log :: s.deployment_logs
            kubernetes_state := ks' }, log)

/-- The fresh five-stage template installed by `trigger_pipeline` (and by the
lazy seeding in `get_current_pipeline`). -/
def stageTemplate : List StageEntry :=
  [{ name := "Checkout", status := "pending", timestamp := none },
   { name := "Test", status := "pending", timestamp := none },
   { name := "Build", status := "pending", timestamp := none },
   { name := "Push", status := "pending", timestamp := none },
   { name := "Deploy", status := "pending", timestamp := none }]

/-- Response shape of `trigger_pipeline` (the fallback payload carries a
message and no branch). -/
structure TriggerResponse where
  status : String
  message : Option String
  pipeline_name : String
  branch : Option String
  build_number : Int
deriving DecidableEq

/-- `POST /pipelines/trigger` handler (`trigger_pipeline`).  `jenkinsOk` is
true exactly when the outbound build-server call returns 200/201/202; any
other response or exception takes the fallback path. -/
def trigger_pipeline (r : TriggerRequest) (now : String) (jenkinsOk : Bool)
    (s : AppState) : AppState × TriggerResponse :=
  let cp' : CurrentPipeline :=
    { pipelineName := some r.pipeline_name
      buildNumber := s.pipeline_status.total + 1
      status := "running"
      currentStage := "Starting..."
      branch := r.branch
      startTime := some now
      duration := none
      stages := stageTemplate }
  let ps' := { s.pipeline_status with active := s.pipeline_status.active + 1 }
  let log : LogEntry :=
    if jenkinsOk then
      { timestamp := now, level := "info"
        message := "Pipeline \x27" ++ r.pipeline_name ++
          "\x27 triggered successfully on branch \x27" ++ r.branch ++ "\x27" }
    else
      { timestamp := now, level := "warning"
        message := "Pipeline trigger queued (Jenkins offline): " ++ r.pipeline_name }
  let resp : TriggerResponse :=
    if jenkinsOk then
      { status := "triggered", message := none, pipeline_name := r.pipeline_name
        branch := some r.branch, build_number := cp'.buildNumber }
    else
      { status := "queued", message := some "Jenkins may be offline, pipeline queued"
        pipeline_name := r.pipeline_name, branch := none
        build_number := cp'.buildNumber }
  ({ s with current_pipeline := cp'
            pipeline_status := ps'
            deployment_logs := log :: s.deployment_logs }, resp)

/-- `POST /deployments/{id}/rollback` handler (`rollback_deployment`).  Note
that this path inserts into the rollout history WITHOUT truncating it. -/
def rollback_deployment (deployment_id : String) (now : String) (s : AppState) :
    AppState :=
  let log : LogEntry :=
    { timestamp := now, level := "warning"
      message := "Rollback initiated for deployment: " ++ deployment_id }
  let ks := s.kubernetes_state
  { s with
      deployment_logs := log :: s.deployment_logs
      kubernetes_state :=
        { ks with rolloutHistory :=
            { revision := ks.rolloutHistory.length + 1
              image := "rollback-" ++ deployment_id
              timestamp := now
              status := "rolling" } :: ks.rolloutHistory } }

/-- Round-half-to-even on an exact rational, as Python `round` does on the
(tie-free in all claim instances) values involved. -/
def round_half_even (q : ℚ) : ℤ :=
  if q - ⌊q⌋ < 1 / 2 then ⌊q⌋
  else if q - ⌊q⌋ > 1 / 2 then ⌊q⌋ + 1
  else if ⌊q⌋ % 2 = 0 then ⌊q⌋ else ⌊q⌋ + 1

/-- Python `round(x, 1)` modelled over exact rationals. -/
def py_round1 (q : ℚ) : ℚ := (round_half_even (q * 10) : ℚ) / 10

/-- `GET /metrics/success-rate` handler (`get_success_rate`), returning the
`rate` field. -/
def get_success_rate (s : AppState) : ℚ :=
  let total : Int := s.pipeline_status.success + s.pipeline_status.failed
  if total = 0 then 100
  else py_round1 ((s.pipeline_status.success : ℚ) / (total : ℚ) * 100)

/-- One inbound mutating operation on the shared state. -/
inductive Op where
  | status (u : PipelineStatus) (nowIso nowShort : String) (duration : Int)
  | stage (u : StageUpdate) (now : String)
  | lifecycle (e : DeploymentEvent) (now : String)
  | trigger (r : TriggerRequest) (now : String) (jenkinsOk : Bool)
  | rollback (deployment_id : String) (now : String)
deriving DecidableEq

/-- The state effect of one operation. -/
def step (s : AppState) : Op → AppState
  | .status u nowIso nowShort d => (update_jenkins_status u nowIso nowShort d s).1
  | .stage u now => (update_stage u now s).1
  | .lifecycle e now => (record_deployment_event e now s).1
  | .trigger r now ok => (trigger_pipeline r now ok s).1
  | .rollback deployment_id now => rollback_deployment deployment_id now s

/-- Run a sequence of operations from a given state. -/
def run (s : AppState) (ops : List Op) : AppState := ops.foldl step s

/-- Recognizer for status events among operations. -/
def isStatusOp : Op → Bool
  | .status _ _ _ _ => true
  | _ => false

/-- The counter invariant of the spec: `succeeded + failed ≤ total` and
`active ≥ 0`. -/
def countersInv (s : AppState) : Prop :=
  s.pipeline_status.success + s.pipeline_status.failed ≤ s.pipeline_status.total ∧
  0 ≤ s.pipeline_status.active

/-- Sample status event payload used to instantiate universally quantified
theorems. -/
def egStatus (st : String) : PipelineStatus :=
  { status := st, pipeline_name := none, build_number := none,
    stage := none, message := none, branch := none }

/-- Sample status operation built from `egStatus`. -/
def egStatusOp (st : String) : Op :=
  Op.status (egStatus st) "2024-01-01T00:00:00" "00:00:00" 60

/-- A state whose success/failed counters are set to the given values. -/
def stateWithCounters (a b : Int) : AppState :=
  { initialState with pipeline_status :=
      { initial_pipeline_status with success := a, failed := b } }

/-- Sample successful deploy lifecycle operation (appends a rollout record). -/
def deployOp : Op :=
  Op.lifecycle { event_type := "deploy", status := "success",
                 details := some [("version", "v1")] } "12:00:00"

/-- Number of operations in a list that append a rollout record: successful
deploy lifecycle events carrying a version, and rollbacks. -/
def appendsRollout : Op → Bool
  | .lifecycle e _ =>
      e.event_type = "deploy" && e.status = "success" &&
        (detailsTruthy e.details && hasVersionKey e.details)
  | .rollback _ _ => true
  | _ => false

/-- `countdown n = [n, n-1, ..., 1]`: the revision column of a rollout ledger
that has never been truncated, most-recent-first. -/
def countdown : Nat → List Nat
  | 0 => []
  | n + 1 => (n + 1) :: countdown n

/-- Sample lifecycle event that is not a successful versioned deploy. -/
def egLifecycle : DeploymentEvent :=
  { event_type := "build_end", status := "success", details := none }

/-- Sample stage event used to instantiate universally quantified theorems. -/
def egStageUpdate : StageUpdate :=
  { stage_name := "Test", status := "running", timestamp := none }

/-- A state whose current pipeline carries a single pending `Test` stage. -/
def egStageState : AppState :=
  { initialState with current_pipeline :=
      { initial_current_pipeline with
          stages := [{ name := "Test", status := "pending", timestamp := none }] } }

/-! ## Helper lemmas -/

lemma update_jenkins_status_counters (u : PipelineStatus) (a b : String) (d : Int)
    (s : AppState) :
    let ps := s.pipeline_status
    let ps2 := ((update_jenkins_status u a b d s).1).pipeline_status
    ps2.total = ps.total + 1 ∧
    ps2.success + ps2.failed ≤ ps.success + ps.failed + 1 ∧
    ps.success ≤ ps2.success ∧ ps.failed ≤ ps2.failed ∧
    (0 ≤ ps.active → 0 ≤ ps2.active) := by
  by_cases h1 : u.status = "success" <;>
    by_cases h2 : u.status = "failure" <;>
      by_cases h3 : u.status = "running" <;>
        simp [update_jenkins_status, h1, h2, h3, decActive] <;> omega

lemma step_countersInv (s : AppState) (o : Op) (h : countersInv s) :
    countersInv (step s o) := by
  obtain ⟨h1, h2⟩ := h
  cases o with
  | status u a b d =>
    have := update_jenkins_status_counters u a b d s
    simp only [step] at *
    constructor <;> omega
  | stage u now => simpa [step, countersInv, update_stage] using ⟨h1, h2⟩
  | lifecycle e now => simpa [step, countersInv, record_deployment_event] using ⟨h1, h2⟩
  | trigger r now ok =>
    constructor <;> simp [step, countersInv, trigger_pipeline] <;> omega
  | rollback i now => simpa [step, countersInv, rollback_deployment] using ⟨h1, h2⟩

lemma run_countersInv (ops : List Op) (s : AppState) (h : countersInv s) :
    countersInv (run s ops) := by
  induction ops generalizing s with
  | nil => exact h
  | cons o rest ih => exact ih _ (step_countersInv s o h)

lemma run_total_of_status (ops : List Op) (s : AppState)
    (h : ∀ o ∈ ops, isStatusOp o = true) :
    (run s ops).pipeline_status.total = s.pipeline_status.total + ops.length := by
  induction ops generalizing s with
  | nil => simp [run]
  | cons o rest ih =>
    have ho := h o (List.mem_cons_self o rest)
    cases o with
    | status u a b d =>
      have hstep : (step s (Op.status u a b d)).pipeline_status.total =
          s.pipeline_status.total + 1 := by
        by_cases h1 : u.status = "success" <;>
          by_cases h2 : u.status = "failure" <;>
            by_cases h3 : u.status = "running" <;>
              simp [step, update_jenkins_status, h1, h2, h3]
      have := ih (step s (Op.status u a b d)) (fun o ho2 => h o (List.mem_cons_of_mem _ ho2))
      simp only [run, List.foldl_cons, List.length_cons] at *
      omega
    | stage u now => simp [isStatusOp] at ho
    | lifecycle e now => simp [isStatusOp] at ho
    | trigger r now ok => simp [isStatusOp] at ho
    | rollback i now => simp [isStatusOp] at ho

/-! ## Claim theorems -/

/-- C1: every status event unconditionally increments `total`; a `success`
event increments `success` and saturatingly decrements `active`; a `failure`
event increments `failed` and saturatingly decrements `active`; a `running`
event increments `active`; any other status value leaves the `success`,
`failed` and `active` counters untouched. -/
theorem C1_status_counters (u : PipelineStatus) (nowIso nowShort : String)
    (d : Int) (s : AppState) (h : 0 ≤ s.pipeline_status.active) :
    ((update_jenkins_status u nowIso nowShort d s).1).pipeline_status.total =
      s.pipeline_status.total + 1 ∧
    (u.status = "success" →
      ((update_jenkins_status u nowIso nowShort d s).1).pipeline_status.success =
        s.pipeline_status.success + 1 ∧
      ((update_jenkins_status u nowIso nowShort d s).1).pipeline_status.failed =
        s.pipeline_status.failed ∧
      ((update_jenkins_status u nowIso nowShort d s).1).pipeline_status.active =
        max (s.pipeline_status.active - 1) 0) ∧
    (u.status = "failure" →
      ((update_jenkins_status u nowIso nowShort d s).1).pipeline_status.failed =
        s.pipeline_status.failed + 1 ∧
      ((update_jenkins_status u nowIso nowShort d s).1).pipeline_status.success =
        s.pipeline_status.success ∧
      ((update_jenkins_status u nowIso nowShort d s).1).pipeline_status.active =
        max (s.pipeline_status.active - 1) 0) ∧
    (u.status = "running" →
      ((update_jenkins_status u nowIso nowShort d s).1).pipeline_status.active =
        s.pipeline_status.active + 1 ∧
      ((update_jenkins_status u nowIso nowShort d s).1).pipeline_status.success =
        s.pipeline_status.success ∧
      ((update_jenkins_status u nowIso nowShort d s).1).pipeline_status.failed =
        s.pipeline_status.failed) ∧
    (u.status ≠ "success" → u.status ≠ "failure" → u.status ≠ "running" →
      ((update_jenkins_status u nowIso nowShort d s).1).pipeline_status.success =
        s.pipeline_status.success ∧
      ((update_jenkins_status u nowIso nowShort d s).1).pipeline_status.failed =
        s.pipeline_status.failed ∧
      ((update_jenkins_status u nowIso nowShort d s).1).pipeline_status.active =
        s.pipeline_status.active) := by
  by_cases h1 : u.status = "success" <;>
    by_cases h2 : u.status = "failure" <;>
      by_cases h3 : u.status = "running" <;>
        simp [update_jenkins_status, h1, h2, h3, decActive] <;> omega

/-- Witness for C1 at a concrete `success` event from the initial state. -/
theorem C1_status_counters_witness :
    0 ≤ initialState.pipeline_status.active ∧
    ((update_jenkins_status (egStatus "success")
        "2024-01-01T00:00:00" "00:00:00" 60 initialState).1).pipeline_status.total =
      initialState.pipeline_status.total + 1 :=
  ⟨by decide,
   (C1_status_counters (egStatus "success")
      "2024-01-01T00:00:00" "00:00:00" 60 initialState (by decide)).1⟩

/-- C2: from the initial state, any sequence of operations preserves
`succeeded + failed ≤ total` and `active ≥ 0`; a sequence consisting only of
status events leaves `total` equal to its length. -/
theorem C2_counter_invariant (ops : List Op) :
    countersInv (run initialState ops) ∧
    ((∀ o ∈ ops, isStatusOp o = true) →
      (run initialState ops).pipeline_status.total = ops.length) := by
  constructor
  · exact run_countersInv ops initialState
      (by constructor <;> simp [initialState, initial_pipeline_status])
  · intro h
    have h0 : initialState.pipeline_status.total = 0 := rfl
    have := run_total_of_status ops initialState h
    rw [h0] at this
    simpa using this

/-- Witness for C2 on a two-element status-only sequence. -/
theorem C2_counter_invariant_witness :
    countersInv (run initialState [egStatusOp "running", egStatusOp "success"]) ∧
    (run initialState [egStatusOp "running", egStatusOp "success"]).pipeline_status.total = 2 :=
  ⟨(C2_counter_invariant [egStatusOp "running", egStatusOp "success"]).1,
   (C2_counter_invariant [egStatusOp "running", egStatusOp "success"]).2 (by decide)⟩

lemma step_log_length (s : AppState) (o : Op) :
    (step s o).deployment_logs.length = s.deployment_logs.length + 1 := by
  cases o <;>
    simp [step, update_jenkins_status, update_stage, record_deployment_event,
      trigger_pipeline, rollback_deployment]

lemma run_log_length (ops : List Op) (s : AppState) :
    (run s ops).deployment_logs.length = s.deployment_logs.length + ops.length := by
  induction ops generalizing s with
  | nil => simp [run]
  | cons o rest ih =>
    have := ih (step s o)
    have h2 := step_log_length s o
    simp only [run, List.foldl_cons, List.length_cons] at *
    omega

lemma setStage_found (l : List StageEntry) (n st t : String) :
    (setStage l n st t).2 = l.any (fun e => e.name = n) := by
  induction l with
  | nil => simp [setStage]
  | cons e rest ih =>
    by_cases h : e.name = n <;> simp [setStage, h, ih]

lemma setStage_present (l : List StageEntry) (n st t : String)
    (h : l.any (fun e => e.name = n) = true) :
    (setStage l n st t).1.length = l.length ∧
    (setStage l n st t).1.map (fun e => e.name) = l.map (fun e => e.name) ∧
    (setStage l n st t).1.find? (fun e => e.name = n) =
      some { name := n, status := st, timestamp := some t } := by
  induction l with
  | nil => simp at h
  | cons e rest ih =>
    by_cases he : e.name = n
    · refine ⟨by simp [setStage, he], by simp [setStage, he], ?_⟩
      simp [setStage, he, List.find?_cons_of_pos]
    · simp only [List.any_cons, he] at h
      have h2 : rest.any (fun e => e.name = n) = true := by simpa [he] using h
      obtain ⟨ih1, ih2, ih3⟩ := ih h2
      refine ⟨by simp [setStage, he, ih1], by simp [setStage, he, ih2], ?_⟩
      simp [setStage, he, List.find?_cons_of_neg, ih3]

lemma update_jenkins_status_startTime (u : PipelineStatus) (a b : String) (d : Int)
    (s : AppState) :
    ((update_jenkins_status u a b d s).1).current_pipeline.startTime =
      (if u.status = "running" ∧ strFalsy s.current_pipeline.startTime then some b
       else s.current_pipeline.startTime) := by
  simp [update_jenkins_status]

lemma countdown_length (n : Nat) : (countdown n).length = n := by
  induction n with
  | zero => rfl
  | succ k ih => simp [countdown, ih]

lemma countdown_reverse (n : Nat) : (countdown n).reverse = List.range' 1 n := by
  induction n with
  | zero => rfl
  | succ k ih =>
    rw [countdown, List.reverse_cons, ih, List.range'_1_concat]
    simp [Nat.add_comm]

lemma step_rollout_append (s : AppState) (o : Op) (h : appendsRollout o = true)
    (hlen : s.kubernetes_state.rolloutHistory.length + 1 ≤ 10) :
    (step s o).kubernetes_state.rolloutHistory.map (fun rr => rr.revision) =
      (s.kubernetes_state.rolloutHistory.length + 1) ::
        s.kubernetes_state.rolloutHistory.map (fun rr => rr.revision) := by
  cases o with
  | status u a b d => simp [appendsRollout] at h
  | stage u now => simp [appendsRollout] at h
  | trigger r now ok => simp [appendsRollout] at h
  | rollback i now => simp [step, rollback_deployment]
  | lifecycle e now =>
    simp only [appendsRollout, Bool.and_eq_true, decide_eq_true_eq] at h
    obtain ⟨⟨h1, h2⟩, h3, h4⟩ := h
    have htake : ∀ l : List RolloutRecord, l.length ≤ 10 → l.take 10 = l :=
      fun l hl => List.take_of_length_le hl
    simp only [step, record_deployment_event, h1, h2, h3, h4, and_self, if_true]
    rw [htake _ (by simpa using hlen)]
    simp

lemma step_rollout_frame (s : AppState) (o : Op) (h : appendsRollout o = false) :
    (step s o).kubernetes_state.rolloutHistory = s.kubernetes_state.rolloutHistory := by
  cases o with
  | status u a b d => simp [step, update_jenkins_status]
  | stage u now => simp [step, update_stage]
  | trigger r now ok => cases ok <;> simp [step, trigger_pipeline]
  | rollback i now => simp [appendsRollout] at h
  | lifecycle e now =>
    simp only [appendsRollout, Bool.and_eq_false_iff] at h
    simp only [step, record_deployment_event]
    by_cases h1 : e.event_type = "deploy" ∧ e.status = "success"
    · by_cases h2 : detailsTruthy e.details ∧ hasVersionKey e.details
      · exfalso
        rcases h with h | h
        · rcases h with h | h
          · simp [h1.1] at h
          · simp [h1.2] at h
        · rcases h with h | h
          · simp [h2.1] at h
          · simp [h2.2] at h
      · simp [h1, h2]
    · simp [h1]

lemma run_rollout_countdown (ops : List Op) (s : AppState) (n : Nat)
    (hmap : s.kubernetes_state.rolloutHistory.map (fun rr => rr.revision) = countdown n)
    (hlen : s.kubernetes_state.rolloutHistory.length = n)
    (hbound : n + ops.countP appendsRollout ≤ 10) :
    (run s ops).kubernetes_state.rolloutHistory.map (fun rr => rr.revision) =
      countdown (n + ops.countP appendsRollout) ∧
    (run s ops).kubernetes_state.rolloutHistory.length = n + ops.countP appendsRollout := by
  induction ops generalizing s n with
  | nil => simpa [run] using ⟨hmap, hlen⟩
  | cons o rest ih =>
    by_cases ha : appendsRollout o = true
    · have hc : (o :: rest).countP appendsRollout = rest.countP appendsRollout + 1 := by
        simp [List.countP_cons, ha]
      have hb1 : n + 1 ≤ 10 := by omega
      have hs := step_rollout_append s o ha (by omega)
      rw [hlen] at hs
      have hlen2 : (step s o).kubernetes_state.rolloutHistory.length = n + 1 := by
        have := congrArg List.length hs
        simpa [countdown_length, hmap] using this
      have hmap2 : (step s o).kubernetes_state.rolloutHistory.map (fun rr => rr.revision) =
          countdown (n + 1) := by
        rw [hs, hmap, countdown]
      have := ih (step s o) (n + 1) hmap2 hlen2 (by omega)
      simp only [run, List.foldl_cons] at *
      constructor
      · rw [this.1]
        congr 1
        omega
      · rw [this.2]
        omega
    · have ha2 : appendsRollout o = false := by simpa using ha
      have hc : (o :: rest).countP appendsRollout = rest.countP appendsRollout := by
        simp [List.countP_cons, ha2]
      have hs := step_rollout_frame s o ha2
      have := ih (step s o) n (by rw [hs]; exact hmap) (by rw [hs]; exact hlen) (by omega)
      simp only [run, List.foldl_cons] at *
      rw [hc]
      exact this

/-- C3: the claim says every bounded ledger stays within its capacity, but the
log-truncation line of `update_jenkins_status` (`deployment_logs[:100]`,
commented "Keep last 100") is a no-op expression: after 101 status events the
log ledger holds 101 entries, exceeding the stated capacity of 100. -/
theorem C3_log_ledger_overflow :
    (run initialState (List.replicate 101 (egStatusOp "pending"))).deployment_logs.length
      = 101 ∧
    ¬ (run initialState (List.replicate 101 (egStatusOp "pending"))).deployment_logs.length
      ≤ 100 := by
  have h := run_log_length (List.replicate 101 (egStatusOp "pending")) initialState
  simp only [List.length_replicate] at h
  have h0 : initialState.deployment_logs.length = 0 := rfl
  rw [h0] at h
  omega

/-- C4: a trigger resets the whole current-pipeline record to the fresh
template (status `running`, five pending stages `Checkout`/`Test`/`Build`/
`Push`/`Deploy`), sets `buildNumber = total + 1` without incrementing `total`,
increments `active`, leaves all other counters and the Kubernetes state alone,
and appends exactly one log line; the resulting counters and current-pipeline
record do not depend on whether the build-server notification succeeded. -/
theorem C4_trigger_reset (r : TriggerRequest) (now : String) (ok : Bool) (s : AppState) :
    ((trigger_pipeline r now ok s).1).current_pipeline =
      { pipelineName := some r.pipeline_name
        buildNumber := s.pipeline_status.total + 1
        status := "running"
        currentStage := "Starting..."
        branch := r.branch
        startTime := some now
        duration := none
        stages := stageTemplate } ∧
    stageTemplate.map (fun e => (e.name, e.status)) =
      [("Checkout", "pending"), ("Test", "pending"), ("Build", "pending"),
       ("Push", "pending"), ("Deploy", "pending")] ∧
    ((trigger_pipeline r now ok s).1).pipeline_status.active =
      s.pipeline_status.active + 1 ∧
    ((trigger_pipeline r now ok s).1).pipeline_status.total = s.pipeline_status.total ∧
    ((trigger_pipeline r now ok s).1).pipeline_status.success = s.pipeline_status.success ∧
    ((trigger_pipeline r now ok s).1).pipeline_status.failed = s.pipeline_status.failed ∧
    ((trigger_pipeline r now ok s).1).pipeline_status.builds = s.pipeline_status.builds ∧
    ((trigger_pipeline r now ok s).1).kubernetes_state = s.kubernetes_state ∧
    ((trigger_pipeline r now ok s).1).deployment_logs.tail = s.deployment_logs ∧
    ((trigger_pipeline r now ok s).1).deployment_logs.length =
      s.deployment_logs.length + 1 ∧
    ((trigger_pipeline r now true s).1).current_pipeline =
      ((trigger_pipeline r now false s).1).current_pipeline ∧
    ((trigger_pipeline r now true s).1).pipeline_status =
      ((trigger_pipeline r now false s).1).pipeline_status ∧
    ((trigger_pipeline r now true s).1).kubernetes_state =
      ((trigger_pipeline r now false s).1).kubernetes_state ∧
    ((trigger_pipeline r now true s).1).deployment_logs.tail =
      ((trigger_pipeline r now false s).1).deployment_logs.tail := by
  cases ok <;> simp [trigger_pipeline, stageTemplate]

/-- C5: a stage event sets `currentStage` unconditionally and never touches the
run's overall status; when a stage with the given name exists the list keeps
its length and names and the (first) matching entry now carries the new status
and time; when none exists a new entry is appended at the end. -/
theorem C5_stage_update (u : StageUpdate) (now : String) (s : AppState) :
    ((update_stage u now s).1).current_pipeline.currentStage = u.stage_name ∧
    ((update_stage u now s).1).current_pipeline.status = s.current_pipeline.status ∧
    (s.current_pipeline.stages.any (fun e => e.name = u.stage_name) = true →
      ((update_stage u now s).1).current_pipeline.stages.length =
        s.current_pipeline.stages.length ∧
      ((update_stage u now s).1).current_pipeline.stages.map (fun e => e.name) =
        s.current_pipeline.stages.map (fun e => e.name) ∧
      ((update_stage u now s).1).current_pipeline.stages.find?
          (fun e => e.name = u.stage_name) =
        some { name := u.stage_name, status := u.status,
               timestamp := some (pyOrStr u.timestamp now) }) ∧
    (s.current_pipeline.stages.any (fun e => e.name = u.stage_name) = false →
      ((update_stage u now s).1).current_pipeline.stages =
        s.current_pipeline.stages ++
          [{ name := u.stage_name, status := u.status,
             timestamp := some (pyOrStr u.timestamp now) }]) := by
  refine ⟨by simp [update_stage], by simp [update_stage], ?_, ?_⟩
  · intro h
    have hf := setStage_found s.current_pipeline.stages u.stage_name u.status
      (pyOrStr u.timestamp now)
    have := setStage_present s.current_pipeline.stages u.stage_name u.status
      (pyOrStr u.timestamp now) h
    simp [update_stage, hf, h, this.1, this.2.1, this.2.2]
  · intro h
    have hf := setStage_found s.current_pipeline.stages u.stage_name u.status
      (pyOrStr u.timestamp now)
    simp [update_stage, hf, h]

/-- Witness for C5 at a state whose stage list already holds a `Test` entry. -/
theorem C5_stage_update_witness :
    egStageState.current_pipeline.stages.any (fun e => e.name = egStageUpdate.stage_name)
      = true ∧
    ((update_stage egStageUpdate "09:00:00" egStageState).1).current_pipeline.stages.length =
      egStageState.current_pipeline.stages.length :=
  ⟨by decide,
   ((C5_stage_update egStageUpdate "09:00:00" egStageState).2.2.1 (by decide)).1⟩

/-- C6: a status event sets `startTime` exactly when the status is `running`
and `startTime` is still unset; once set (to a non-empty time string) later
`running` events leave it unchanged while still incrementing `active`. -/
theorem C6_start_time_idempotent (u : PipelineStatus) (a b : String) (d : Int)
    (s : AppState) :
    (u.status = "running" → strFalsy s.current_pipeline.startTime = true →
      ((update_jenkins_status u a b d s).1).current_pipeline.startTime = some b) ∧
    (strFalsy s.current_pipeline.startTime = false →
      ((update_jenkins_status u a b d s).1).current_pipeline.startTime =
        s.current_pipeline.startTime) ∧
    (u.status ≠ "running" →
      ((update_jenkins_status u a b d s).1).current_pipeline.startTime =
        s.current_pipeline.startTime) ∧
    (u.status = "running" →
      ((update_jenkins_status u a b d s).1).pipeline_status.active =
        s.pipeline_status.active + 1) ∧
    (u.status = "running" → b ≠ "" →
      ∀ u2 : PipelineStatus, ∀ a2 b2 : String, ∀ d2 : Int, u2.status = "running" →
        ((update_jenkins_status u2 a2 b2 d2
            ((update_jenkins_status u a b d s).1)).1).current_pipeline.startTime =
          ((update_jenkins_status u a b d s).1).current_pipeline.startTime ∧
        ((update_jenkins_status u2 a2 b2 d2
            ((update_jenkins_status u a b d s).1)).1).pipeline_status.active =
          ((update_jenkins_status u a b d s).1).pipeline_status.active + 1) := by
  refine ⟨?_, ?_, ?_, ?_, ?_⟩
  · intro h1 h2
    rw [update_jenkins_status_startTime]
    simp [h1, h2]
  · intro h
    rw [update_jenkins_status_startTime]
    simp [h]
  · intro h
    rw [update_jenkins_status_startTime]
    simp [h]
  · intro h
    simp [update_jenkins_status, h]
  · intro h1 hb u2 a2 b2 d2 h2
    constructor
    · rw [update_jenkins_status_startTime, update_jenkins_status_startTime]
      by_cases hf : strFalsy s.current_pipeline.startTime = true
      · simp only [h1, h2, hf, and_true, if_pos, true_and]
        simp [strFalsy, hb]
      · simp only [Bool.not_eq_true] at hf
        simp [h1, h2, hf]
    · simp [update_jenkins_status, h2]

/-- Witness for C6: a first `running` event from the initial state sets
`startTime`. -/
theorem C6_start_time_idempotent_witness :
    (egStatus "running").status = "running" ∧
    strFalsy initialState.current_pipeline.startTime = true ∧
    ((update_jenkins_status (egStatus "running") "2024-01-01T00:00:00" "09:00:00" 60
        initialState).1).current_pipeline.startTime = some "09:00:00" :=
  ⟨by decide, by decide,
   (C6_start_time_idempotent (egStatus "running") "2024-01-01T00:00:00" "09:00:00" 60
      initialState).1 (by decide) (by decide)⟩

/-- C7: the success-rate read is `succeeded / (succeeded + failed) * 100`
rounded to one decimal, exactly `100` when the denominator is zero; in
particular 0/0 gives 100.0, 3/1 gives 75.0 and 1/2 gives 33.3. -/
theorem C7_success_rate :
    (∀ s : AppState,
      s.pipeline_status.success + s.pipeline_status.failed = 0 →
        get_success_rate s = 100) ∧
    (∀ s : AppState,
      s.pipeline_status.success + s.pipeline_status.failed ≠ 0 →
        get_success_rate s =
          py_round1 ((s.pipeline_status.success : ℚ) /
            ((s.pipeline_status.success : ℚ) + (s.pipeline_status.failed : ℚ)) * 100)) ∧
    get_success_rate (stateWithCounters 0 0) = 100 ∧
    get_success_rate (stateWithCounters 3 1) = 75 ∧
    get_success_rate (stateWithCounters 1 2) = 333 / 10 := by
  refine ⟨?_, ?_, ?_, ?_, ?_⟩
  · intro s h
    simp [get_success_rate, h]
  · intro s h
    simp [get_success_rate, h]
  · simp [get_success_rate, stateWithCounters, initial_pipeline_status, initialState]
  · have h : get_success_rate (stateWithCounters 3 1) = py_round1 ((3 : ℚ) / 4 * 100) := by
      simp [get_success_rate, stateWithCounters, initial_pipeline_status, initialState]
    rw [h]
    unfold py_round1
    have h1 : (3 : ℚ) / 4 * 100 * 10 = 750 := by norm_num
    rw [h1]
    have h2 : round_half_even (750 : ℚ) = 750 := by unfold round_half_even; norm_num
    rw [h2]
    norm_num
  · have h : get_success_rate (stateWithCounters 1 2) = py_round1 ((1 : ℚ) / 3 * 100) := by
      simp [get_success_rate, stateWithCounters, initial_pipeline_status, initialState]
    rw [h]
    unfold py_round1
    have h1 : (1 : ℚ) / 3 * 100 * 10 = 1000 / 3 := by norm_num
    rw [h1]
    have h2 : round_half_even ((1000 : ℚ) / 3) = 333 := by
      unfold round_half_even
      have hf : ⌊(1000 : ℚ) / 3⌋ = 333 := by
        rw [Int.floor_eq_iff]
        norm_num
      rw [hf]
      norm_num
    rw [h2]
    norm_num

/-- Witness for C7 at zero counters. -/
theorem C7_success_rate_witness :
    (stateWithCounters 0 0).pipeline_status.success +
      (stateWithCounters 0 0).pipeline_status.failed = 0 ∧
    get_success_rate (stateWithCounters 0 0) = 100 :=
  ⟨by decide, C7_success_rate.1 (stateWithCounters 0 0) (by decide)⟩

/-- C8 counterexample: a trigger whose build-server notification fails leaves
the run status `running` (neither `success`, `failure` nor `failed`), yet the
appended log line has level `warning`, not the `info` the claim derives. -/
theorem C8_level_counterexample :
    ((trigger_pipeline { pipeline_name := "autodeployx-backend", branch := "main" }
        "10:00:00" false initialState).1).current_pipeline.status = "running" ∧
    ((trigger_pipeline { pipeline_name := "autodeployx-backend", branch := "main" }
        "10:00:00" false initialState).1).deployment_logs.head?.map
      (fun e => e.level) = some "warning" ∧
    "warning" ≠ "info" := by
  refine ⟨by decide, by decide, by decide⟩

/-- C8 (amended): each of the three event operations appends exactly one log
line; status events derive its level as success/failure→success/error else
info; stage events as success/failed→success/error else info; a trigger logs
level `info` when the build-server notification succeeds and `warning` when it
fails. -/
theorem C8_log_levels (u : PipelineStatus) (a b : String) (d : Int)
    (v : StageUpdate) (now : String) (r : TriggerRequest) (t : String) (ok : Bool)
    (s : AppState) :
    ((update_jenkins_status u a b d s).1).deployment_logs.tail = s.deployment_logs ∧
    ((update_jenkins_status u a b d s).1).deployment_logs.head?.map (fun e => e.level) =
      some (if u.status = "success" then "success"
            else if u.status = "failure" then "error" else "info") ∧
    ((update_stage v now s).1).deployment_logs.tail = s.deployment_logs ∧
    ((update_stage v now s).1).deployment_logs.head?.map (fun e => e.level) =
      some (if v.status = "success" then "success"
            else if v.status = "failed" then "error" else "info") ∧
    ((trigger_pipeline r t ok s).1).deployment_logs.tail = s.deployment_logs ∧
    ((trigger_pipeline r t ok s).1).deployment_logs.head?.map (fun e => e.level) =
      some (if ok then "info" else "warning") := by
  refine ⟨by simp [update_jenkins_status], by simp [update_jenkins_status], ?_, ?_, ?_, ?_⟩
  · simp [update_stage]
  · simp [update_stage]
  · cases ok <;> simp [trigger_pipeline]
  · cases ok <;> simp [trigger_pipeline]

/-- C9 counterexample: after twelve successful versioned deploys the rollout
ledger reads `[11, 11, 10, ..., 3]` most-recent-first: the oldest-first
revision column is neither strictly increasing nor equal to `1..length`, so
revisions are not monotonically increasing 1-based by position. -/
theorem C9_revision_counterexample :
    ((run initialState (List.replicate 12 deployOp)).kubernetes_state.rolloutHistory.map
      (fun rr => rr.revision)) = [11, 11, 10, 9, 8, 7, 6, 5, 4, 3] ∧
    ¬ List.Pairwise (fun x y => x < y)
        (((run initialState (List.replicate 12 deployOp)).kubernetes_state.rolloutHistory.reverse.map
          (fun rr => rr.revision))) ∧
    ((run initialState (List.replicate 12 deployOp)).kubernetes_state.rolloutHistory.reverse.map
      (fun rr => rr.revision)) ≠
      List.range' 1
        (run initialState (List.replicate 12 deployOp)).kubernetes_state.rolloutHistory.length := by
  refine ⟨by decide, by decide, by decide⟩

/-- C9 (amended): as long as at most ten rollout records have ever been
appended (so truncation has never discarded one), the ledger's oldest-first
revision column is exactly `1..length`: strictly increasing, 1-based by
position. -/
theorem C9_revisions_increasing (ops : List Op)
    (h : ops.countP appendsRollout ≤ 10) :
    (run initialState ops).kubernetes_state.rolloutHistory.map (fun rr => rr.revision) =
      countdown (run initialState ops).kubernetes_state.rolloutHistory.length ∧
    (run initialState ops).kubernetes_state.rolloutHistory.reverse.map (fun rr => rr.revision) =
      List.range' 1 (run initialState ops).kubernetes_state.rolloutHistory.length ∧
    List.Pairwise (fun x y => x < y)
      ((run initialState ops).kubernetes_state.rolloutHistory.reverse.map (fun rr => rr.revision)) := by
  have h0m : initialState.kubernetes_state.rolloutHistory.map (fun rr => rr.revision) =
      countdown 0 := rfl
  have h0l : initialState.kubernetes_state.rolloutHistory.length = 0 := rfl
  have := run_rollout_countdown ops initialState 0 h0m h0l (by omega)
  obtain ⟨hm, hl⟩ := this
  rw [Nat.zero_add] at hm hl
  refine ⟨by rw [hm, hl], ?_, ?_⟩
  · rw [List.map_reverse, hm, countdown_reverse, hl]
  · rw [List.map_reverse, hm, countdown_reverse]
    exact List.pairwise_lt_range' _ _

/-- Witness for C9 (amended) on a deploy followed by a rollback. -/
theorem C9_revisions_increasing_witness :
    ([deployOp, Op.rollback "dep-1" "13:00:00"].countP appendsRollout ≤ 10) ∧
    (run initialState [deployOp, Op.rollback "dep-1" "13:00:00"]).kubernetes_state.rolloutHistory.reverse.map
      (fun rr => rr.revision) =
      List.range' 1
        (run initialState [deployOp, Op.rollback "dep-1" "13:00:00"]).kubernetes_state.rolloutHistory.length :=
  ⟨by decide,
   (C9_revisions_increasing [deployOp, Op.rollback "dep-1" "13:00:00"] (by decide)).2.1⟩

/-- C10: a lifecycle event that is not a successful deploy carrying a version
key leaves the Kubernetes state (and the counters and current pipeline)
unchanged; its only state effect is appending one log line. -/
theorem C10_lifecycle_frame (e : DeploymentEvent) (now : String) (s : AppState)
    (h : ¬(e.event_type = "deploy" ∧ e.status = "success" ∧
           hasVersionKey e.details = true)) :
    ((record_deployment_event e now s).1).kubernetes_state = s.kubernetes_state ∧
    ((record_deployment_event e now s).1).pipeline_status = s.pipeline_status ∧
    ((record_deployment_event e now s).1).current_pipeline = s.current_pipeline ∧
    ((record_deployment_event e now s).1).deployment_logs.tail = s.deployment_logs ∧
    ((record_deployment_event e now s).1).deployment_logs.length =
      s.deployment_logs.length + 1 := by
  have hks : ((record_deployment_event e now s).1).kubernetes_state = s.kubernetes_state := by
    simp only [record_deployment_event]
    by_cases h1 : e.event_type = "deploy" ∧ e.status = "success"
    · by_cases h2 : detailsTruthy e.details ∧ hasVersionKey e.details
      · exact absurd ⟨h1.1, h1.2, h2.2⟩ h
      · simp [h1, h2]
    · simp [h1]
  refine ⟨hks, ?_, ?_, ?_, ?_⟩ <;> simp [record_deployment_event]

/-- Witness for C10 at a successful non-deploy event. -/
theorem C10_lifecycle_frame_witness :
    ¬(egLifecycle.event_type = "deploy" ∧ egLifecycle.status = "success" ∧
        hasVersionKey egLifecycle.details = true) ∧
    ((record_deployment_event egLifecycle "11:00:00" initialState).1).kubernetes_state =
      initialState.kubernetes_state :=
  ⟨by decide,
   (C10_lifecycle_frame egLifecycle "11:00:00" initialState (by decide)).1⟩
